import Mathlib

/-!
Verification of `chainlit/google/__init__.py` (Google GenAI SDK instrumentation).

This file gives a shallow embedding of the instrumentation module:

* Python values that flow through the extraction heuristics are modelled by
  the mutual inductive family `PyVal` / `PyList` / `PyDict` / `PyAttrs`
  (dictionaries keep insertion order; object attributes are an ordered
  attribute table standing for `__dict__`).  Numeric values are modelled by
  `Int` (the claims under study never distinguish `float` from `int`), and
  `set` values are not modelled (no claim mentions them).
* Fallible Python code is embedded with `Except String` — an `Except.error`
  models an uncaught Python exception carrying the exception kind.
* The ambient Chainlit context and the `Step` span store are external
  collaborators of the module; they are modelled from their interface as the
  spec describes it (a current step, a recent-step stack, and a span record
  handed over on `send`).
* Stateful monkey-patching is embedded as explicit state passing: patch
  markers and wrap counters live in small state structures and the patch
  functions are state transformers.
-/

/-- Decidable equality for `Except`, needed to evaluate closed facts about
fallible operations. -/
instance {ε α : Type} [DecidableEq ε] [DecidableEq α] : DecidableEq (Except ε α) := fun a b =>
  match a, b with
  | .error x, .error y =>
    if h : x = y then isTrue (congrArg Except.error h)
    else isFalse fun hh => h (by cases hh; rfl)
  | .error _, .ok _ => isFalse fun hh => by cases hh
  | .ok _, .error _ => isFalse fun hh => by cases hh
  | .ok x, .ok y =>
    if h : x = y then isTrue (congrArg Except.ok h)
    else isFalse fun hh => h (by cases hh; rfl)

/-- Python dictionary keys (hashable primitives). `_simplify` stringifies
them with `str(k)`; `PyKey.toStr` models `str` on these primitives. -/
inductive PyKey where
  | str (s : String)
  | int (n : Int)
  | bool (b : Bool)
  | none
  deriving DecidableEq, Repr

/-- Python `str()` on dictionary keys. -/
def PyKey.toStr : PyKey → String
  | .str s => s
  | .int n => toString n
  | .bool b => if b then "True" else "False"
  | .none => "None"

mutual
/-- A Python value as seen by the instrumentation module.  `obj` is an object
with a `__dict__` attribute table; `otherDump` is an object without
`__dict__` exposing `model_dump()` (whose successful result is the carried
value); `otherRepr` is any other object, carrying its `repr` string. -/
inductive PyVal where
  | none
  | bool (b : Bool)
  | int (n : Int)
  | str (s : String)
  | list (xs : PyList)
  | tuple (xs : PyList)
  | dict (es : PyDict)
  | obj (attrs : PyAttrs)
  | otherDump (d : PyVal) (rep : String)
  | otherRepr (rep : String)
  deriving DecidableEq, Repr

/-- A Python list/tuple payload. -/
inductive PyList where
  | nil
  | cons (x : PyVal) (xs : PyList)
  deriving DecidableEq, Repr

/-- A Python dict payload, in insertion order. -/
inductive PyDict where
  | nil
  | cons (k : PyKey) (v : PyVal) (es : PyDict)
  deriving DecidableEq, Repr

/-- An object attribute table (`vars(obj)`), in insertion order. -/
inductive PyAttrs where
  | nil
  | cons (name : String) (v : PyVal) (attrs : PyAttrs)
  deriving DecidableEq, Repr
end

/-- Build a `PyList` from a Lean list. -/
def PyList.ofList : List PyVal → PyList
  | [] => .nil
  | x :: xs => .cons x (PyList.ofList xs)

/-- Flatten a `PyList` back to a Lean list. -/
def PyList.toList : PyList → List PyVal
  | .nil => []
  | .cons x xs => x :: PyList.toList xs

/-- Build a `PyDict` from a Lean association list. -/
def PyDict.ofList : List (PyKey × PyVal) → PyDict
  | [] => .nil
  | (k, v) :: es => .cons k v (PyDict.ofList es)

/-- The keys of a dict, in order (Python iteration over a dict yields keys). -/
def PyDict.keyList : PyDict → List PyKey
  | .nil => []
  | .cons k _ es => k :: PyDict.keyList es

/-- First value stored under a key (`d.get(k)` / `d[k]`). -/
def PyDict.get : PyDict → PyKey → Option PyVal
  | .nil, _ => Option.none
  | .cons k v es, key => if k = key then some v else PyDict.get es key

/-- Build a `PyAttrs` table from a Lean association list. -/
def PyAttrs.ofList : List (String × PyVal) → PyAttrs
  | [] => .nil
  | (k, v) :: es => .cons k v (PyAttrs.ofList es)

/-- Look up an attribute value by name. -/
def PyAttrs.get : PyAttrs → String → Option PyVal
  | .nil, _ => Option.none
  | .cons k v es, key => if k = key then some v else PyAttrs.get es key

/-- Lift a dict key to a value (what iterating a dict yields). -/
def PyKey.toVal : PyKey → PyVal
  | .str s => .str s
  | .int n => .int n
  | .bool b => .bool b
  | .none => .none

/-- Python `s.startswith(pre)` (modelled on the character list so that closed
instances evaluate definitionally). -/
def pyStartsWith (s pre : String) : Bool := pre.data.isPrefixOf s.data

/-- Python `getattr(v, name, None)`: only `obj` carries the probed attribute
names; every other modelled value yields the `None` default. -/
def getAttrD (v : PyVal) (name : String) : PyVal :=
  match v with
  | .obj attrs => (attrs.get name).getD .none
  | _ => .none

/-- Python `hasattr(v, name)` for the probed attribute names.  Distinct from
`getAttrD`: an attribute present with value `None` still counts. -/
def hasAttr (v : PyVal) (name : String) : Bool :=
  match v with
  | .obj attrs => (attrs.get name).isSome
  | _ => false

/-- Python truthiness of a modelled value. -/
def pyTruthy : PyVal → Bool
  | .none => false
  | .bool b => b
  | .int n => n != 0
  | .str s => s != ""
  | .list xs => xs != .nil
  | .tuple xs => xs != .nil
  | .dict es => es != .nil
  | .obj _ => true
  | .otherDump _ _ => true
  | .otherRepr _ => true

/-- Python iteration `for x in v`: lists/tuples yield elements, strings yield
one-character strings, dicts yield their keys; other values raise
`TypeError`, modelled as `Option.none`. -/
def pyIter (v : PyVal) : Option (List PyVal) :=
  match v with
  | .list xs => some xs.toList
  | .tuple xs => some xs.toList
  | .str s => some (s.toList.map fun c => .str (String.mk [c]))
  | .dict es => some (es.keyList.map PyKey.toVal)
  | _ => Option.none

mutual
/-- Embedding of `_simplify` (source lines 340-358): primitives and `None`
pass through; dicts keep order with `str()`-ified keys and simplified
values; lists and tuples become lists of simplified elements; objects with
`__dict__` become dicts of their non-underscore attributes; objects exposing
only `model_dump()` are simplified through its result; anything else becomes
its `repr` string.  (The source wraps the `model_dump()` call in
`try/except`; a failing dump is not modelled — `otherDump` carries the
successful dump result.) -/
def _simplify : PyVal → PyVal
  | .none => .none
  | .bool b => .bool b
  | .int n => .int n
  | .str s => .str s
  | .dict es => .dict (simplifyEntries es)
  | .list xs => .list (simplifyList xs)
  | .tuple xs => .list (simplifyList xs)
  | .obj attrs => .dict (simplifyAttrs attrs)
  | .otherDump d _ => _simplify d
  | .otherRepr rep => .str rep
termination_by structural v => v

/-- Element-wise simplification of a list/tuple payload. -/
def simplifyList : PyList → PyList
  | .nil => .nil
  | .cons x xs => .cons (_simplify x) (simplifyList xs)
termination_by structural l => l

/-- `{str(k): _simplify(v) for k, v in value.items()}`. -/
def simplifyEntries : PyDict → PyDict
  | .nil => .nil
  | .cons k v es => .cons (.str k.toStr) (_simplify v) (simplifyEntries es)
termination_by structural d => d

/-- `{key: _simplify(val) for key, val in vars(value).items() if not
key.startswith("_")}`. -/
def simplifyAttrs : PyAttrs → PyDict
  | .nil => .nil
  | .cons k v es =>
    if pyStartsWith k "_" then simplifyAttrs es
    else .cons (.str k) (_simplify v) (simplifyAttrs es)
termination_by structural a => a
end

/-! ## Payload extractors (`_extract_model`, `_extract_prompt`, `_extract_output`) -/

/-- Keyword arguments (`**kwargs`): a Python dict with string keys, in
insertion order. -/
abbrev Kwargs := List (String × PyVal)

/-- `kwargs[key]` / `key in kwargs`. -/
def kwGet : Kwargs → String → Option PyVal
  | [], _ => Option.none
  | (k, v) :: rest, key => if k = key then some v else kwGet rest key

/-- Embedding of `_default_step_name` (source lines 263-264). -/
def _default_step_name (interface method : String) : String :=
  "google::" ++ interface ++ "." ++ method

/-- The positional-argument scan of `_extract_model` (source lines 271-275):
a string starting with `"models/"`, or a dict whose `"model"` key holds a
string. -/
def argsModelScan : List PyVal → Option String
  | [] => Option.none
  | v :: rest =>
    match v with
    | .str s => if pyStartsWith s "models/" then some s else argsModelScan rest
    | .dict es =>
      match es.get (PyKey.str "model") with
      | some (.str s) => some s
      | _ => argsModelScan rest
    | _ => argsModelScan rest

/-- The result-attribute scan of `_extract_model` (source lines 277-280):
first attribute among the given names whose value is a string. -/
def attrStrScan (result : PyVal) : List String → Option String
  | [] => Option.none
  | a :: rest =>
    match getAttrD result a with
    | .str s => some s
    | _ => attrStrScan result rest

/-- Embedding of `_extract_model` (source lines 267-282). -/
def _extract_model (args : List PyVal) (kwargs : Kwargs) (result : PyVal) :
    Option String :=
  match kwGet kwargs "model" with
  | some (.str s) => some s
  | _ =>
    match argsModelScan args with
    | some s => some s
    | Option.none => attrStrScan result ["model", "model_name", "model_version"]

/-- Rule (1) of the model-identifier heuristic in isolation: a keyword
argument named `"model"` holding a string. -/
def modelRuleKwargs (kwargs : Kwargs) : Option String :=
  match kwGet kwargs "model" with
  | some (.str s) => some s
  | _ => Option.none

/-- Rule (3) of the model-identifier heuristic in isolation: the first of
the result attributes `model`, `model_name`, `model_version` that is a
string. -/
def modelRuleResult (result : PyVal) : Option String :=
  attrStrScan result ["model", "model_name", "model_version"]

/-- The fixed preference-ordered keyword list of `_extract_prompt`. -/
def promptKeys : List String := ["contents", "messages", "prompt", "input", "text"]

/-- The keyword loop of `_extract_prompt` (source lines 286-288): the first
key present in `kwargs` wins and its value is simplified (even when that
value is `None`). -/
def promptFromKwargs (kwargs : Kwargs) : List String → Option PyVal
  | [] => Option.none
  | k :: rest =>
    match kwGet kwargs k with
    | some v => some (_simplify v)
    | Option.none => promptFromKwargs kwargs rest

/-- The positional loop of `_extract_prompt` (source lines 290-292): the
first argument that is a `str`, `list`, or `dict`, simplified. -/
def promptFromArgs : List PyVal → Option PyVal
  | [] => Option.none
  | v :: rest =>
    match v with
    | .str _ => some (_simplify v)
    | .list _ => some (_simplify v)
    | .dict _ => some (_simplify v)
    | _ => promptFromArgs rest

/-- Embedding of `_extract_prompt` (source lines 285-294).  The Python
function returns `None` both when nothing matches and when a matching value
simplifies to `None`; the embedding returns `PyVal.none` in both cases,
exactly as the caller observes it. -/
def _extract_prompt (args : List PyVal) (kwargs : Kwargs) : PyVal :=
  match promptFromKwargs kwargs promptKeys with
  | some p => p
  | Option.none =>
    match promptFromArgs args with
    | some p => p
    | Option.none => .none

/-- `isinstance(v, str) and v` — a non-empty string. -/
def strIfNonEmpty (v : PyVal) : Option String :=
  match v with
  | .str s => if s = "" then Option.none else some s
  | _ => Option.none

/-- The first attribute among `names` whose value is a non-empty string
(source lines 301-304). -/
def firstTextAttr (result : PyVal) : List String → Option String
  | [] => Option.none
  | a :: rest =>
    match strIfNonEmpty (getAttrD result a) with
    | some s => some s
    | Option.none => firstTextAttr result rest

/-- The inner part loop of the candidates walk (source lines 316-319):
collect every truthy `text` attribute, in order.  Note the source appends
the raw attribute value — there is no `isinstance(text, str)` check. -/
def partTexts : List PyVal → List PyVal
  | [] => []
  | p :: rest =>
    let t := getAttrD p "text"
    if pyTruthy t then t :: partTexts rest else partTexts rest

/-- The candidate loop of the candidates walk (source lines 309-319).
Returns the collected fragments and whether the loop ran to completion:
a candidate whose `parts` value is not iterable raises `TypeError`, which
aborts the loop, keeping the fragments collected so far (the `texts` list
is created before the `try` block in the source). -/
def candTexts : List PyVal → List PyVal × Bool
  | [] => ([], true)
  | c :: rest =>
    match getAttrD c "content" with
    | .none => candTexts rest
    | content =>
      match getAttrD content "parts" with
      | .none => candTexts rest
      | parts =>
        match pyIter parts with
        | Option.none => ([], false)
        | some ps =>
          let x := candTexts rest
          (partTexts ps ++ x.1, x.2)

/-- The whole `try` body of the candidates walk: iterating
`result.candidates` itself may raise (flag `false`), which is swallowed by
the `except` clause with no fragments collected. -/
def candidatesWalk (result : PyVal) : List PyVal × Bool :=
  match pyIter (getAttrD result "candidates") with
  | Option.none => ([], false)
  | some cs => candTexts cs

/-- The fragments the candidates walk leaves in `texts`. -/
def candidatesTexts (result : PyVal) : List PyVal :=
  (candidatesWalk result).1

/-- All-strings check: `"\n".join` succeeds exactly when every element is a
string; otherwise it raises `TypeError` at the first offender. -/
def allStrings : List PyVal → Option (List String)
  | [] => some []
  | v :: rest =>
    match v with
    | .str s => (allStrings rest).map fun ss => s :: ss
    | _ => Option.none

/-- Python `"\n".join(ss)`. -/
def joinStrings : List String → String
  | [] => ""
  | [s] => s
  | s :: rest => s ++ "\n" ++ joinStrings rest

/-- `"\n".join(texts)` (source line 323).  The join sits outside the
`try/except` of the walk, so a non-string fragment raises `TypeError` to
the caller of `_extract_output`. -/
def joinTexts (texts : List PyVal) : Except String PyVal :=
  match allStrings texts with
  | some ss => Except.ok (.str (joinStrings ss))
  | Option.none => Except.error "TypeError"

/-- Rule (3) of the output heuristic (source lines 325-332): a nested
`response` object exposing an `output_text` attribute that is a string
(empty strings included — only `isinstance` is checked here). -/
def outputResponseRule (result : PyVal) : Option PyVal :=
  let resp := getAttrD result "response"
  if hasAttr result "response" && hasAttr resp "output_text" then
    match getAttrD resp "output_text" with
    | .str s => some (.str s)
    | _ => Option.none
  else Option.none

/-- Rules (4) and (5) of the output heuristic (source lines 334-337): a
primitive scalar result passes through; anything else is simplified. -/
def outputPrimitiveOrSimplify (result : PyVal) : PyVal :=
  match result with
  | .str _ => result
  | .int _ => result
  | .bool _ => result
  | _ => _simplify result

/-- Everything after the candidates block of `_extract_output`. -/
def outputAfterCandidates (result : PyVal) : PyVal :=
  match outputResponseRule result with
  | some v => v
  | Option.none => outputPrimitiveOrSimplify result

/-- Embedding of `_extract_output` (source lines 297-337). An
`Except.error` is an uncaught Python exception escaping to the caller. -/
def _extract_output (result : PyVal) : Except String PyVal :=
  if result = PyVal.none then Except.ok .none
  else
    match firstTextAttr result ["output_text", "text", "response_text"] with
    | some s => Except.ok (.str s)
    | Option.none =>
      if hasAttr result "candidates" then
        let texts := candidatesTexts result
        if texts.isEmpty then Except.ok (outputAfterCandidates result)
        else joinTexts texts
      else Except.ok (outputAfterCandidates result)

/-! ## Span recorder (`_record_generation`) -/

/-- A step reference from the ambient context; only its id is consumed. -/
structure StepRef where
  id : String
  deriving DecidableEq, Repr

/-- Modelled from the spec: the ambient execution-context collaborator
(`chainlit.context`, outside the verified sources) exposes an optional
current step. -/
structure ChainlitCtx where
  current_step : Option StepRef
  deriving DecidableEq, Repr

/-- Modelled from the spec: the ambient state consumed by the recorder.
`getContext = Except.error ()` models `get_context()` raising
`ChainlitContextException`; `localSteps` is `local_steps.get()` (possibly
`None`); `now` is the clock reading taken for the span end time. -/
structure Ambient where
  getContext : Except Unit ChainlitCtx
  localSteps : Option (List StepRef)
  now : Nat
  deriving DecidableEq, Repr

/-- Modelled from the spec: the span record handed to the step store
(`chainlit.step.Step`, outside the verified sources).  Timestamps keep the
raw clock readings (`timestamp_utc` formatting is the concern of the collaborator). -/
structure Span where
  name : String
  type : String
  parent_id : Option String
  metadata : List (String × String)
  input : PyVal
  output : PyVal
  startTs : Nat
  endTs : Nat
  deriving DecidableEq, Repr

/-- Parent resolution of `_record_generation` (source lines 224-233): the
current step of the ambient context when one exists, else the last recent
step, else none; `ChainlitContextException` is caught and treated as "no
context". -/
def resolveParent (amb : Ambient) : Option String :=
  let ctx : Option ChainlitCtx :=
    match amb.getContext with
    | .ok c => some c
    | .error _ => Option.none
  let fromStack : Option String := ((amb.localSteps.getD []).getLast?).map StepRef.id
  match ctx with
  | some c =>
    match c.current_step with
    | some s => some s.id
    | Option.none => fromStack
  | Option.none => fromStack

/-- `kwargs` as the Python dict object (for the input fallback payload). -/
def kwargsToDict : Kwargs → PyDict
  | [] => .nil
  | (k, v) :: rest => .cons (.str k) v (kwargsToDict rest)

/-- Embedding of `_record_generation` (source lines 216-260).  On success
the returned span is the one whose asynchronous `send` gets scheduled; an
`Except.error` is an exception escaping to the wrapper (and hence to the
application). -/
def _record_generation (interface method : String) (args : List PyVal)
    (kwargs : Kwargs) (result : PyVal) (startTime : Nat) (amb : Ambient) :
    Except String Span :=
  let parent_id := resolveParent amb
  let model := _extract_model args kwargs result
  let prompt := _extract_prompt args kwargs
  match _extract_output result with
  | .error e => Except.error e
  | .ok output =>
    Except.ok {
      name :=
        match model with
        | some m => if m = "" then _default_step_name interface method else m
        | Option.none => _default_step_name interface method,
      type := "llm",
      parent_id := parent_id,
      metadata := [("provider", "google"), ("interface", interface), ("method", method)],
      input :=
        match prompt with
        | .none => .dict (.cons (.str "args") (_simplify (.tuple (PyList.ofList args)))
            (.cons (.str "kwargs") (_simplify (.dict (kwargsToDict kwargs))) .nil))
        | p => p,
      output := output,
      startTs := startTime,
      endTs := amb.now }

/-! ## Method interceptor (`_wrap_bound_method` / `_wrap_callable`)

The two factories have textually identical wrapper bodies in the source
(lines 152-181 and 184-213); the embeddings below stand for both. -/

/-- What awaiting the delegate (or the delegate coroutine) does. -/
inductive AwaitedOutcome where
  | value (v : PyVal)
  | raises (e : String)
  deriving DecidableEq, Repr

/-- What calling the wrapped delegate synchronously does: a plain value, a
lazily-returned awaitable, a generator/streaming iterator (kept opaque), or
an exception. -/
inductive CallOutcome where
  | value (v : PyVal)
  | awaitable (inner : AwaitedOutcome)
  | generator (tag : String)
  | raises (e : String)
  deriving DecidableEq, Repr

/-- What driving the replacement awaitable does, together with the spans
whose send it schedules. -/
inductive DriveOutcome where
  | yields (v : PyVal) (scheduled : List Span)
  | raises (e : String) (scheduled : List Span)
  deriving DecidableEq, Repr

/-- Observable behaviour of one intercepted synchronous call: what is
returned (or raised) and which span sends were scheduled at each phase. -/
inductive SyncResult where
  | value (v : PyVal) (scheduled : List Span)
  | raised (e : String) (scheduled : List Span)
  | generator (tag : String) (scheduled : List Span)
  | deferred (preScheduled : List Span) (drive : DriveOutcome)
  deriving DecidableEq, Repr

/-- Embedding of the `_await_and_record` closure (source lines 168-173):
await the inner result, then record, then yield the awaited value. -/
def awaitAndRecord (interface method : String) (args : List PyVal)
    (kwargs : Kwargs) (startTime : Nat) (amb : Ambient)
    (inner : AwaitedOutcome) : DriveOutcome :=
  match inner with
  | .raises e => .raises e []
  | .value v =>
    match _record_generation interface method args kwargs v startTime amb with
    | .ok span => .yields v [span]
    | .error e => .raises e []

/-- Embedding of the `_sync_wrapper` closure (source lines 163-179): plain
results are recorded and returned; awaitable results are replaced by a new
awaitable that records only after resolution; generators pass through
untouched; delegate exceptions propagate before any recording. -/
def _sync_wrapper (interface method : String) (args : List PyVal)
    (kwargs : Kwargs) (startTime : Nat) (amb : Ambient)
    (outcome : CallOutcome) : SyncResult :=
  match outcome with
  | .raises e => .raised e []
  | .awaitable inner =>
    .deferred [] (awaitAndRecord interface method args kwargs startTime amb inner)
  | .generator tag => .generator tag []
  | .value v =>
    match _record_generation interface method args kwargs v startTime amb with
    | .ok span => .value v [span]
    | .error e => .raised e []

/-- Observable behaviour of one intercepted coroutine call. -/
inductive AsyncResult where
  | yields (v : PyVal) (scheduled : List Span)
  | raises (e : String) (scheduled : List Span)
  deriving DecidableEq, Repr

/-- Embedding of the `_async_wrapper` closure (source lines 157-161):
await the delegate, record, return the result; delegate exceptions
propagate before any recording. -/
def _async_wrapper (interface method : String) (args : List PyVal)
    (kwargs : Kwargs) (startTime : Nat) (amb : Ambient)
    (inner : AwaitedOutcome) : AsyncResult :=
  match inner with
  | .raises e => .raises e []
  | .value v =>
    match _record_generation interface method args kwargs v startTime amb with
    | .ok span => .yields v [span]
    | .error e => .raises e []

/-! ## SDK surface walker / patch guard -/

/-- State of one patchable callable: how many interception wrappers sit on
it, and whether the patch marker is set on the object callers currently
reach. -/
structure FnState where
  wrapCount : Nat
  marked : Bool
  deriving DecidableEq, Repr

/-- The wrapping step shared by all patch sites: skip when the marker is
set, otherwise install one wrapper and set the marker on it (source lines
110-115 and 142-149 — the marker is set on the wrapper that replaces the
original, so it guards the object callers actually invoke). -/
def patchFn (f : FnState) : FnState :=
  if f.marked then f else { wrapCount := f.wrapCount + 1, marked := true }

/-- An attribute table of patchable callables (module functions or component
methods), in insertion order. -/
abbrev FnTable := List (String × FnState)

/-- One table entry under the walker: a callable is patched exactly when its
name is listed, otherwise left untouched. -/
def patchFnIn (names : List String) (n : String) (f : FnState) : FnState :=
  if n ∈ names then patchFn f else f

/-- Patch every callable of the table whose name is listed in `names`, each
guarded by its own marker. -/
def patchSurface (names : List String) : FnTable → FnTable
  | [] => []
  | (n, f) :: rest => (n, patchFnIn names n f) :: patchSurface names rest

/-- State of a client class: layers of `wrapped_init` around `__init__`,
plus the class-level patch marker. -/
structure ClassState where
  initWrapCount : Nat
  marked : Bool
  deriving DecidableEq, Repr

/-- Embedding of `_patch_client_class` (source lines 81-92). -/
def _patch_client_class (c : ClassState) : ClassState :=
  if c.marked then c else { initWrapCount := c.initWrapCount + 1, marked := true }

/-- The candidate function names of `_patch_legacy_sdk` (source lines
101-105). -/
def legacyGenerateNames : List String :=
  ["generate_text", "generate_content", "generate_message"]

/-- State of the legacy `google.generativeai` module: the module-level patch
marker and the function attributes of the module. -/
structure LegacyState where
  moduleMarked : Bool
  fns : FnTable
  deriving DecidableEq, Repr

/-- Embedding of `_patch_legacy_sdk` (source lines 95-117). -/
def _patch_legacy_sdk (l : LegacyState) : LegacyState :=
  if l.moduleMarked then l
  else { moduleMarked := true, fns := patchSurface legacyGenerateNames l.fns }

/-- A client instance: the sub-surface components present on it (absent
component — or a falsy one — is skipped by the walker), each an attribute
table of methods. -/
structure ClientInstance where
  responses : Option FnTable
  models : Option FnTable
  agents : Option FnTable
  sessions : Option FnTable
  tools : Option FnTable
  deriving DecidableEq, Repr

/-- Embedding of `_instrument_client_instance` (source lines 120-149): walk
the fixed surface table, skip absent components, and patch each listed
method under its own marker. -/
def _instrument_client_instance (i : ClientInstance) : ClientInstance :=
  { responses := i.responses.map (patchSurface ["generate"]),
    models := i.models.map (patchSurface ["generate_content", "generate", "create_completion"]),
    agents := i.agents.map (patchSurface ["create", "update", "delete", "execute", "query"]),
    sessions := i.sessions.map (patchSurface ["generate", "generate_content", "execute"]),
    tools := i.tools.map (patchSurface ["execute"]) }

/-- Constructing a client once the class is patched: every `wrapped_init`
layer wrapped around `__init__` runs `_instrument_client_instance` once on
the freshly built instance (source lines 87-91). -/
def constructClient (c : ClassState) (fresh : ClientInstance) : ClientInstance :=
  _instrument_client_instance^[c.initWrapCount] fresh

/-! ## Install entrypoint (`instrument_google_genai` / `_locate_google_sdk`) -/

/-- The modern `google.genai` module: its `Client` / `AsyncClient` class
attributes (`getattr(sdk, ..., None)`). -/
structure ModernSdk where
  client : Option ClassState
  asyncClient : Option ClassState
  deriving DecidableEq, Repr

/-- The import environment: which SDK variants are importable, and their
patch states.  `modern = none` models `from google import genai` raising. -/
structure PyEnv where
  modern : Option ModernSdk
  legacy : Option LegacyState
  deriving DecidableEq, Repr

/-- What `_locate_google_sdk` returned, in terms of the source triple
`(sdk, client_class, async_client_class)`: a modern module with its class
attributes, the legacy module (with both classes `None`), or nothing. -/
inductive Located where
  | modern (m : ModernSdk)
  | legacyModule
  | nothing
  deriving DecidableEq, Repr

/-- The legacy fallback branch of `_locate_google_sdk` (source lines
65-78): when the legacy module imports, it is patched as a side effect
before the triple `(legacy_sdk, None, None)` is returned. -/
def locateLegacy (env : PyEnv) : Located × PyEnv :=
  match env.legacy with
  | Option.none => (.nothing, env)
  | some l => (.legacyModule, { env with legacy := some (_patch_legacy_sdk l) })

/-- Embedding of `_locate_google_sdk` (source lines 51-78). -/
def _locate_google_sdk (env : PyEnv) : Located × PyEnv :=
  match env.modern with
  | some m =>
    if m.client.isSome || m.asyncClient.isSome then (.modern m, env)
    else locateLegacy env
  | Option.none => locateLegacy env

/-- The `ValueError` message of `instrument_google_genai` (source lines
38-42, reflowed without the apostrophe). -/
def configErrorMessage : String :=
  "Expected either google-genai (preferred) or google-generativeai to be installed. Install one of them to enable Chainlit Google instrumentation."

/-- Embedding of `instrument_google_genai` (source lines 25-48): locate an
SDK variant, raise `ValueError` when the located triple carries no client
class (which is also the case for the legacy triple), otherwise patch the
located client classes. -/
def instrument_google_genai (env : PyEnv) : Except String PyEnv :=
  let loc := _locate_google_sdk env
  let env1 := loc.2
  match loc.1 with
  | .modern m =>
    if m.client.isNone && m.asyncClient.isNone then Except.error configErrorMessage
    else
      let patched : ModernSdk :=
        ModernSdk.mk (m.client.map _patch_client_class)
          (m.asyncClient.map _patch_client_class)
      Except.ok { env1 with modern := some patched }
  | _ => Except.error configErrorMessage

/-! ## Concrete fixtures -/

/-- The fake response of the reference test (`test_google_genai.py`):
attributes `model`, `output_text`, `text`, and an empty `candidates`
list. -/
def fakeResponse : PyVal :=
  .obj (PyAttrs.ofList
    [("model", .str "models/gemini-test"),
     ("output_text", .str "echo:hello world"),
     ("text", .str "echo:hello world"),
     ("candidates", .list .nil)])

/-- A part whose `text` attribute is the truthy non-string `5`. -/
def badPart : PyVal := .obj (PyAttrs.ofList [("text", .int 5)])

/-- A result whose candidates walk collects the non-string fragment `5`:
`candidates = [Candidate(content=Content(parts=[Part(text=5)]))]`.  The
walk itself raises nothing, but `"\n".join` on the collected fragment
raises `TypeError`. -/
def badResult : PyVal :=
  .obj (PyAttrs.ofList
    [("candidates", .list (PyList.ofList
      [.obj (PyAttrs.ofList
        [("content", .obj (PyAttrs.ofList
          [("parts", .list (PyList.ofList [badPart]))]))])]))])

/-- A candidate contributing the fragment `"A"`. -/
def goodCandidate : PyVal :=
  .obj (PyAttrs.ofList
    [("content", .obj (PyAttrs.ofList
      [("parts", .list (PyList.ofList
        [.obj (PyAttrs.ofList [("text", .str "A")])]))]))])

/-- A candidate whose non-`None` `parts` value is not iterable: iterating it
raises `TypeError` inside the walk. -/
def abortingCandidate : PyVal :=
  .obj (PyAttrs.ofList
    [("content", .obj (PyAttrs.ofList [("parts", .int 7)]))])

/-- A result on which the candidates walk collects `"A"` and then hits an
exception on the second candidate. -/
def abortedWalkResult : PyVal :=
  .obj (PyAttrs.ofList
    [("candidates", .list (PyList.ofList [goodCandidate, abortingCandidate]))])

/-- Ambient state with no active execution context (`get_context` raises)
and an unset recent-step stack (`local_steps.get()` is `None`). -/
def ambNone : Ambient :=
  { getContext := Except.error (), localSteps := Option.none, now := 7 }

/-- The span produced for an intercepted `models.generate_content` call with
`contents="hi"` returning the plain string `"ok"` under `ambNone`. -/
def hiSpan : Span :=
  { name := "google::models.generate_content", type := "llm", parent_id := Option.none,
    metadata := [("provider", "google"), ("interface", "models"), ("method", "generate_content")],
    input := .str "hi", output := .str "ok", startTs := 1, endTs := 7 }

/-! ## Helper lemmas -/

theorem patchFn_idem (f : FnState) : patchFn (patchFn f) = patchFn f := by
  cases f with
  | mk w m => cases m <;> simp [patchFn]

theorem patchFnIn_idem (names : List String) (n : String) (f : FnState) :
    patchFnIn names n (patchFnIn names n f) = patchFnIn names n f := by
  by_cases hm : n ∈ names <;> simp [patchFnIn, hm, patchFn_idem]

theorem patchSurface_idem (names : List String) (t : FnTable) :
    patchSurface names (patchSurface names t) = patchSurface names t := by
  induction t with
  | nil => rfl
  | cons p rest ih =>
    obtain ⟨n, f⟩ := p
    simp [patchSurface, patchFnIn_idem, ih]

theorem patchSurface_append (names : List String) (pre post : FnTable)
    (n : String) (k : Nat) :
    patchSurface names (pre ++ (n, ⟨k, false⟩) :: post)
      = patchSurface names pre
        ++ (n, if n ∈ names then (⟨k + 1, true⟩ : FnState) else ⟨k, false⟩)
        :: patchSurface names post := by
  induction pre with
  | nil => by_cases hm : n ∈ names <;> simp [patchSurface, patchFnIn, patchFn, hm]
  | cons p rest ih =>
    obtain ⟨a, b⟩ := p
    simp [patchSurface, ih]

theorem _patch_client_class_idem (c : ClassState) :
    _patch_client_class (_patch_client_class c) = _patch_client_class c := by
  cases c with
  | mk w m => cases m <;> simp [_patch_client_class]

theorem _patch_legacy_sdk_idem (l : LegacyState) :
    _patch_legacy_sdk (_patch_legacy_sdk l) = _patch_legacy_sdk l := by
  cases l with
  | mk mm fns => cases mm <;> simp [_patch_legacy_sdk]

theorem _instrument_client_instance_idem (i : ClientInstance) :
    _instrument_client_instance (_instrument_client_instance i)
      = _instrument_client_instance i := by
  cases i with
  | mk r m a s t =>
    cases r <;> cases m <;> cases a <;> cases s <;> cases t <;>
      simp [_instrument_client_instance, patchSurface_idem]

/-! ## Claim theorems -/

/-- C1: the install entrypoint is claimed to raise its configuration error
(naming both package identifiers) if and only if neither SDK variant is
importable, and to return successfully when only the legacy SDK is
importable.  The code violates the "only if" direction: with the modern SDK
absent and the legacy module importable, `_locate_google_sdk` patches the
legacy module but returns `(legacy_sdk, None, None)`, and
`instrument_google_genai` then raises the `ValueError` anyway — even though
its own docstring and the error message itself promise success whenever one
of the two packages is installed.  This theorem evaluates the embedding at
that failing environment, checks the two intended directions (neither
variant → error; modern variant → success), and exhibits both package
identifiers inside the error message. -/
theorem c1_legacy_only_still_raises :
    instrument_google_genai
        ⟨Option.none, some ⟨false, [("generate_content", ⟨0, false⟩)]⟩⟩
      = Except.error configErrorMessage
    ∧ (_locate_google_sdk
        ⟨Option.none, some ⟨false, [("generate_content", ⟨0, false⟩)]⟩⟩).2.legacy
      = some ⟨true, [("generate_content", ⟨1, true⟩)]⟩
    ∧ instrument_google_genai ⟨Option.none, Option.none⟩
      = Except.error configErrorMessage
    ∧ (instrument_google_genai ⟨some ⟨some ⟨0, false⟩, Option.none⟩, Option.none⟩).isOk
      = true
    ∧ (∃ a b, configErrorMessage = a ++ "google-genai" ++ b)
    ∧ (∃ a b, configErrorMessage = a ++ "google-generativeai" ++ b) := by
  refine ⟨by decide, by decide, by decide, by decide, ?_, ?_⟩
  · exact ⟨"Expected either ",
      " (preferred) or google-generativeai to be installed. Install one of them to enable Chainlit Google instrumentation.",
      by decide⟩
  · exact ⟨"Expected either google-genai (preferred) or ",
      " to be installed. Install one of them to enable Chainlit Google instrumentation.",
      by decide⟩

/-- C2: `_record_generation` is claimed never to raise to its caller, for
every input and ambient-context state.  The parent-resolution failure is
indeed absorbed (second conjunct: the call succeeds under every ambient
state when extraction succeeds), but the claim fails as a universal
statement: the candidates walk of `_extract_output` collects any truthy
`text` attribute without an `isinstance` check, and the subsequent
`"\n".join` sits outside the `try/except`, so a result carrying a truthy
non-string `text` fragment makes `_record_generation` raise `TypeError`
(first conjunct evaluates the embedding at such a result). -/
theorem c2_record_generation_can_raise :
    _record_generation "responses" "generate" [] [] badResult 0 ambNone
      = Except.error "TypeError"
    ∧ (∀ amb : Ambient,
        (_record_generation "responses" "generate" [] [] PyVal.none 0 amb).isOk = true) := by
  exact ⟨by decide, fun amb => rfl⟩

/-- C3: installation is idempotent — patching a client class, the legacy
module, or a client instance twice equals patching it once; a single pass
adds exactly one wrapper layer to an unmarked class constructor; a fresh
legacy module ends with its candidate functions wrapped exactly once even
after a double patch; inside any method table a fresh listed method gets
exactly one wrapper and its marker set (and non-listed entries are
untouched); and constructing a client after a double install runs the
per-instance walk exactly once. -/
theorem c3_install_idempotent :
    (∀ c, _patch_client_class (_patch_client_class c) = _patch_client_class c)
    ∧ (∀ l, _patch_legacy_sdk (_patch_legacy_sdk l) = _patch_legacy_sdk l)
    ∧ (∀ i, _instrument_client_instance (_instrument_client_instance i)
        = _instrument_client_instance i)
    ∧ (∀ n : Nat, (_patch_client_class ⟨n, false⟩).initWrapCount = n + 1)
    ∧ (∀ n : Nat,
        (_patch_client_class (_patch_client_class ⟨n, false⟩)).initWrapCount = n + 1)
    ∧ (∀ fns : FnTable,
        _patch_legacy_sdk (_patch_legacy_sdk ⟨false, fns⟩)
          = ⟨true, patchSurface legacyGenerateNames fns⟩)
    ∧ (∀ names pre post (n : String) (k : Nat),
        patchSurface names (pre ++ (n, ⟨k, false⟩) :: post)
          = patchSurface names pre
            ++ (n, if n ∈ names then (⟨k + 1, true⟩ : FnState) else ⟨k, false⟩)
            :: patchSurface names post)
    ∧ (∀ inst, constructClient (_patch_client_class (_patch_client_class ⟨0, false⟩)) inst
        = _instrument_client_instance inst) := by
  refine ⟨_patch_client_class_idem, _patch_legacy_sdk_idem,
    _instrument_client_instance_idem, ?_, ?_, ?_, patchSurface_append, ?_⟩
  · intro n; simp [_patch_client_class]
  · intro n; simp [_patch_client_class]
  · intro fns; simp [_patch_legacy_sdk]
  · intro inst; rfl

/-- C4: the claim says every intercepted call schedules exactly one span
emission when it completes with a non-streaming result (plain value, or
awaitable once resolved) and exactly zero when the result is a generator,
which passes through unchanged.  The generator part holds (second
conjunct), and well-behaved plain and awaitable completions schedule
exactly one span (third and fourth conjuncts), but the universal claim
fails: when the completed result makes span recording raise (the
`"\n".join` `TypeError` of `_extract_output`, see C2), the call completes
with a plain non-streaming result yet zero span emissions are scheduled —
and the wrapper raises to the caller (first conjunct evaluates the
embedding there). -/
theorem c4_span_scheduling :
    _sync_wrapper "responses" "generate" [] [] 0 ambNone (.value badResult)
      = .raised "TypeError" []
    ∧ (∀ i m args kwargs t amb tag,
        _sync_wrapper i m args kwargs t amb (.generator tag) = .generator tag [])
    ∧ _sync_wrapper "models" "generate_content" [] [("contents", .str "hi")] 1 ambNone
        (.value (.str "ok"))
      = .value (.str "ok") [hiSpan]
    ∧ _sync_wrapper "models" "generate_content" [] [("contents", .str "hi")] 1 ambNone
        (.awaitable (.value (.str "ok")))
      = .deferred [] (.yields (.str "ok") [hiSpan]) := by
  exact ⟨by decide, fun _ _ _ _ _ _ _ => rfl, by decide, by decide⟩

/-- C5: an exception raised by the wrapped SDK callable propagates to the
caller unaltered — for the synchronous wrapper, the coroutine wrapper, and
the deferred awaitable produced for a lazily-returned awaitable — and in
every such case no span is recorded or scheduled (the recorder is never
reached, so the scheduled list is empty). -/
theorem c5_sdk_exceptions_propagate :
    (∀ i m args kwargs t amb e,
      _sync_wrapper i m args kwargs t amb (.raises e) = .raised e [])
    ∧ (∀ i m args kwargs t amb e,
      _async_wrapper i m args kwargs t amb (.raises e) = .raises e [])
    ∧ (∀ i m args kwargs t amb e,
      _sync_wrapper i m args kwargs t amb (.awaitable (.raises e))
        = .deferred [] (.raises e [])) :=
  ⟨fun _ _ _ _ _ _ _ => rfl, fun _ _ _ _ _ _ _ => rfl, fun _ _ _ _ _ _ _ => rfl⟩

/-- C6: for a synchronous call whose delegate returns an awaitable, the
wrapper returns a new awaitable with nothing scheduled before it is driven
(first conjunct), and whenever recording succeeds the output of the recorded span is extracted from the resolved value and that resolved value is
what the awaitable yields (second conjunct).  The claim nevertheless fails
as stated: when recording raises after resolution (the `"\n".join`
`TypeError`, see C2), the awaitable made by the wrapper raises instead of yielding
the resolved value and schedules nothing (third conjunct evaluates the
embedding there). -/
theorem c6_awaitable_resolution :
    (∀ i m args kwargs t amb inner, ∃ d,
      _sync_wrapper i m args kwargs t amb (.awaitable inner) = .deferred [] d)
    ∧ (∀ i m args kwargs t amb v span,
        _record_generation i m args kwargs v t amb = Except.ok span →
        awaitAndRecord i m args kwargs t amb (.value v) = .yields v [span]
        ∧ _extract_output v = Except.ok span.output)
    ∧ awaitAndRecord "responses" "generate" [] [] 0 ambNone (.value badResult)
      = .raises "TypeError" [] := by
  refine ⟨fun i m args kwargs t amb inner => ⟨_, rfl⟩, ?_, by decide⟩
  intro i m args kwargs t amb v span h
  have hrec := h
  simp only [_record_generation] at hrec
  refine ⟨by simp [awaitAndRecord, h], ?_⟩
  cases he : _extract_output v with
  | error e => simp [he] at hrec
  | ok out =>
    simp [he] at hrec
    subst hrec
    simp [he]

/-- Closed witness for C6: the hypothesis-bearing conjunct applied to a
concrete awaitable call resolving to the plain string `"ok"`. -/
theorem c6_awaitable_resolution_witness :
    awaitAndRecord "models" "generate_content" [] [("contents", .str "hi")] 1 ambNone
        (.value (.str "ok"))
      = .yields (.str "ok") [hiSpan]
    ∧ _extract_output (.str "ok") = Except.ok hiSpan.output := by
  have h : _record_generation "models" "generate_content" [] [("contents", .str "hi")]
      (.str "ok") 1 ambNone = Except.ok hiSpan := by decide
  exact c6_awaitable_resolution.2.1 "models" "generate_content" []
    [("contents", .str "hi")] 1 ambNone (.str "ok") hiSpan h

/-- C7: for every recorded span the parent is resolved in this exact order:
the current step of the ambient context when an execution context exists and has
a current step; otherwise the last element of the recent-step stack when it
is non-empty; otherwise no parent — in particular, with no active context
and an empty stack the parent of the span is none. -/
theorem c7_parent_resolution (i m : String) (args : List PyVal) (kwargs : Kwargs)
    (result : PyVal) (t : Nat) (amb : Ambient) (span : Span)
    (h : _record_generation i m args kwargs result t amb = Except.ok span) :
    span.parent_id = resolveParent amb
    ∧ (∀ c s, amb.getContext = Except.ok c → c.current_step = some s →
        span.parent_id = some s.id)
    ∧ (∀ c, amb.getContext = Except.ok c → c.current_step = Option.none →
        span.parent_id = ((amb.localSteps.getD []).getLast?).map StepRef.id)
    ∧ (amb.getContext = Except.error () →
        span.parent_id = ((amb.localSteps.getD []).getLast?).map StepRef.id)
    ∧ (amb.getContext = Except.error () → amb.localSteps.getD [] = [] →
        span.parent_id = Option.none) := by
  have hp : span.parent_id = resolveParent amb := by
    simp only [_record_generation] at h
    cases he : _extract_output result with
    | error e => simp [he] at h
    | ok out =>
      simp [he] at h
      subst h
      rfl
  refine ⟨hp, ?_, ?_, ?_, ?_⟩
  · intro c s hc hs
    rw [hp]
    simp [resolveParent, hc, hs]
  · intro c hc hs
    rw [hp]
    simp [resolveParent, hc, hs]
  · intro hc
    rw [hp]
    simp [resolveParent, hc]
  · intro hc hl
    rw [hp]
    simp [resolveParent, hc, hl]

/-- Closed witness for C7: a call with no active execution context and an
empty recent-step stack produces a span with no parent. -/
theorem c7_parent_resolution_witness :
    (Span.mk "google::a.b" "llm" Option.none
        [("provider", "google"), ("interface", "a"), ("method", "b")]
        (.dict (.cons (.str "args") (.list .nil) (.cons (.str "kwargs") (.dict .nil) .nil)))
        PyVal.none 0 7).parent_id = Option.none := by
  have h : _record_generation "a" "b" [] [] PyVal.none 0 ambNone
      = Except.ok (Span.mk "google::a.b" "llm" Option.none
          [("provider", "google"), ("interface", "a"), ("method", "b")]
          (.dict (.cons (.str "args") (.list .nil) (.cons (.str "kwargs") (.dict .nil) .nil)))
          PyVal.none 0 7) := by decide
  exact (c7_parent_resolution "a" "b" [] [] PyVal.none 0 ambNone _ h).2.2.2.2 rfl rfl

/-- C8: model-identifier extraction applies first-match-wins rules in this
exact order — the string-valued `"model"` keyword argument, then the
positional scan (a string with the `"models/"` prefix or a mapping with a
string `"model"` key), then the first string-valued result attribute among
`model`, `model_name`, `model_version` — and the reference-test call with
`model="models/gemini-test"` and `contents="hello world"` produces a span
named `"models/gemini-test"`. -/
theorem c8_model_extraction_order :
    (∀ args kwargs result,
      _extract_model args kwargs result
        = ((modelRuleKwargs kwargs).orElse fun _ =>
            (argsModelScan args).orElse fun _ => modelRuleResult result))
    ∧ _sync_wrapper "responses" "generate" []
        [("model", .str "models/gemini-test"), ("contents", .str "hello world")] 3 ambNone
        (.value fakeResponse)
      = .value fakeResponse
          [{ name := "models/gemini-test", type := "llm", parent_id := Option.none,
             metadata := [("provider", "google"), ("interface", "responses"), ("method", "generate")],
             input := .str "hello world", output := .str "echo:hello world",
             startTs := 3, endTs := 7 }] := by
  refine ⟨?_, by decide⟩
  intro args kwargs result
  cases hk : kwGet kwargs "model" with
  | none =>
    cases ha : argsModelScan args <;>
      simp [_extract_model, modelRuleKwargs, modelRuleResult, hk, ha, Option.orElse]
  | some v =>
    cases v <;> cases ha : argsModelScan args <;>
      simp [_extract_model, modelRuleKwargs, modelRuleResult, hk, ha, Option.orElse]

/-- C9: prompt extraction returns the simplified value of the first keyword
argument present among `contents`, `messages`, `prompt`, `input`, `text`
(in that order), else the simplified first positional argument that is a
string, list, or dict, else none — and the input of the recorded span is the
extracted prompt when it is not none, else the structural simplification of
all positional and keyword arguments. -/
theorem c9_prompt_extraction_order :
    (∀ args kwargs,
      _extract_prompt args kwargs
        = (((promptFromKwargs kwargs promptKeys).orElse fun _ =>
            promptFromArgs args).getD PyVal.none))
    ∧ (∀ i m args kwargs result t amb span,
        _record_generation i m args kwargs result t amb = Except.ok span →
        (_extract_prompt args kwargs = PyVal.none →
          span.input = .dict (.cons (.str "args") (_simplify (.tuple (PyList.ofList args)))
            (.cons (.str "kwargs") (_simplify (.dict (kwargsToDict kwargs))) .nil)))
        ∧ (∀ p, _extract_prompt args kwargs = p → p ≠ PyVal.none → span.input = p)) := by
  constructor
  · intro args kwargs
    cases hkw : promptFromKwargs kwargs promptKeys with
    | none =>
      cases hargs : promptFromArgs args <;>
        simp [_extract_prompt, hkw, hargs, Option.orElse]
    | some p => simp [_extract_prompt, hkw, Option.orElse]
  · intro i m args kwargs result t amb span h
    simp only [_record_generation] at h
    cases he : _extract_output result with
    | error e => simp [he] at h
    | ok out =>
      simp [he] at h
      subst h
      constructor
      · intro hp
        simp [hp]
      · intro p hp hne
        simp only [Span.input]
        rw [hp]
        cases p <;> first | exact absurd rfl hne | rfl

/-- Closed witness for C9: a call with `contents="hello"` records a span
whose input is the simplified prompt `"hello"`. -/
theorem c9_prompt_extraction_order_witness :
    (Span.mk "google::a.b" "llm" Option.none
        [("provider", "google"), ("interface", "a"), ("method", "b")]
        (.str "hello") PyVal.none 0 7).input = PyVal.str "hello" := by
  have h : _record_generation "a" "b" [] [("contents", .str "hello")] PyVal.none 0 ambNone
      = Except.ok (Span.mk "google::a.b" "llm" Option.none
          [("provider", "google"), ("interface", "a"), ("method", "b")]
          (.str "hello") PyVal.none 0 7) := by decide
  exact ((c9_prompt_extraction_order.2 "a" "b" [] [("contents", .str "hello")]
    PyVal.none 0 ambNone _ h).2 (.str "hello") (by decide) (by decide))

/-- C10 counterexample: the claim says any exception raised during the
candidates walk is swallowed and extraction falls through to the next rule.
On `abortedWalkResult` — which exposes `candidates` and has no non-empty
string in `output_text` / `text` / `response_text` — the walk collects the
fragment `"A"` and then raises on the second candidate (walk flag `false`);
the exception is swallowed, but extraction returns the partial join `"A"`
instead of falling through to the next rule (whose value would be
`outputAfterCandidates abortedWalkResult`).  Additionally, on `badResult`
the walk completes but collects the non-string fragment `5`, and the join —
outside the exception guard of the walk — raises `TypeError` instead of
producing a span output. -/
theorem c10_walk_exception_counterexample :
    candidatesWalk abortedWalkResult = ([.str "A"], false)
    ∧ firstTextAttr abortedWalkResult ["output_text", "text", "response_text"]
      = Option.none
    ∧ hasAttr abortedWalkResult "candidates" = true
    ∧ _extract_output abortedWalkResult = Except.ok (.str "A")
    ∧ _extract_output abortedWalkResult
      ≠ Except.ok (outputAfterCandidates abortedWalkResult)
    ∧ candidatesWalk badResult = ([.int 5], true)
    ∧ _extract_output badResult = Except.error "TypeError" := by
  exact ⟨by decide, by decide, by decide, by decide, by decide, by decide, by decide⟩

/-- C10 (amended): for a result exposing a candidates collection with no
non-empty string in `output_text` / `text` / `response_text`, extraction
walks content → parts → text collecting every truthy `text` attribute in
traversal order (an exception aborts the walk but keeps fragments already
collected); when at least one fragment was collected the extraction result
is the newline-join of the collected fragments (which yields the joined
string exactly when all fragments are strings), and extraction falls
through to the rules after the candidates block only when no fragment was
collected. -/
theorem c10_candidates_walk_amended (r : PyVal)
    (hattr : hasAttr r "candidates" = true)
    (htext : firstTextAttr r ["output_text", "text", "response_text"] = Option.none) :
    (candidatesTexts r ≠ [] → _extract_output r = joinTexts (candidatesTexts r))
    ∧ (candidatesTexts r = [] → _extract_output r = Except.ok (outputAfterCandidates r))
    ∧ (∀ ss, allStrings (candidatesTexts r) = some ss →
        joinTexts (candidatesTexts r) = Except.ok (.str (joinStrings ss))) := by
  have hne0 : r ≠ PyVal.none := by
    intro e
    subst e
    simp [hasAttr] at hattr
  refine ⟨?_, ?_, ?_⟩
  · intro hne
    have hf : (candidatesTexts r).isEmpty = false := by
      cases hct : candidatesTexts r with
      | nil => exact absurd hct hne
      | cons a l => rfl
    simp [_extract_output, if_neg hne0, htext, hattr, hf]
  · intro hemp
    have hf : (candidatesTexts r).isEmpty = true := by
      rw [hemp]
      rfl
    simp [_extract_output, if_neg hne0, htext, hattr, hf]
  · intro ss hss
    simp [joinTexts, hss]

/-- Closed witness for C10: the amended theorem applied to
`abortedWalkResult`, whose walk aborts after collecting `"A"`. -/
theorem c10_candidates_walk_amended_witness :
    hasAttr abortedWalkResult "candidates" = true
    ∧ _extract_output abortedWalkResult = joinTexts (candidatesTexts abortedWalkResult) := by
  refine ⟨by decide, ?_⟩
  exact (c10_candidates_walk_amended abortedWalkResult (by decide) (by decide)).1 (by decide)
